import Mathlib

/-!
Shallow embedding of `src/scripts/runtime_env.py` (the environment
configuration builder of the contact-service CLI) and proofs of the
specification claims about it.

A process environment is modelled as a total function from variable names
to optional string values (`EnvMap`).  The Python builders are classes
whose state is an `EnvironmentConfig` record; here a builder is a `Mode`
tag together with its config.  `build` is pure: it takes the ambient
environment as an argument and returns either a validation error or a
`BuildResult` holding the produced mapping, the diagnostic warning lines
that the Python code would print to stderr, and the builder state after
the call (the Python `build` reads but never writes `self._config`, so
that state is returned unchanged).  Python string truthiness (`if not s`)
is modelled by `pyTruthy`: `None` and the empty string are falsy.
-/

namespace RuntimeEnv

/-- A process environment: a total map from variable names to optional values.
`none` means the variable is unset. -/
def EnvMap : Type := String → Option String

/-- Dictionary assignment `env[k] = v`. -/
def EnvMap.set (e : EnvMap) (k v : String) : EnvMap :=
  fun k' => if k' = k then some v else e k'

/-- Python `dict.setdefault(k, v)`: set `k` to `v` only when `k` is absent. -/
def EnvMap.setdefault (e : EnvMap) (k v : String) : EnvMap :=
  match e k with
  | some _ => e
  | none => e.set k v

/-- Python `dict.update(kvs)`: assign every pair in order (later pairs win). -/
def EnvMap.updateAll (e : EnvMap) (kvs : List (String × String)) : EnvMap :=
  kvs.foldl (fun acc kv => acc.set kv.1 kv.2) e

/-- The rightmost value bound to `k` in an association list, i.e. the value a
Python dict built from the list would hold for `k`. -/
def lastValue : List (String × String) → String → Option String
  | [], _ => none
  | kv :: t, k =>
    match lastValue t k with
    | some v => some v
    | none => if kv.1 = k then some kv.2 else none

/-- The environment with every variable unset. -/
def emptyEnv : EnvMap := fun _ => none

/-- Python truthiness of an `Optional[str]`: `None` and `""` are falsy. -/
def pyTruthy : Option String → Bool
  | none => false
  | some s => !(s = "")

/-- Source constant `DEV_DEFAULT_JWT_SECRET`: the intentionally insecure
development placeholder secret. -/
def DEV_DEFAULT_JWT_SECRET : String := "devsecretkey123456789012345678901234567890"

/-- Source enum `DatabaseType`. -/
inductive DatabaseType : Type
  | h2
  | postgres
deriving DecidableEq, Repr

/-- Source enum `SpringProfile`. -/
inductive SpringProfile : Type
  | default
  | dev
  | prod
deriving DecidableEq, Repr

/-- The `.value` string of a `SpringProfile` member. -/
def SpringProfile.value : SpringProfile → String
  | .default => "default"
  | .dev => "dev"
  | .prod => "prod"

/-- Source dataclass `EnvironmentConfig` with its field defaults. -/
structure EnvironmentConfig : Type where
  cookie_secure : Bool := false
  spring_profile : SpringProfile := SpringProfile.default
  csp_relaxed : Bool := false
  jwt_secret : Option String := none
  require_ssl : Bool := false
  database : DatabaseType := DatabaseType.h2
  postgres_url : String := "jdbc:postgresql://localhost:5432/contactapp"
  postgres_username : String := "contactapp"
  postgres_password : String := "contactapp"
  extra_vars : List (String × String) := []
deriving DecidableEq

/-- Which builder subclass a builder instance belongs to. -/
inductive Mode : Type
  | dev
  | prodLocal
  | ciLocal
deriving DecidableEq, Repr

/-- A builder instance: its subclass tag and its `_config` state. -/
structure Builder : Type where
  mode : Mode
  config : EnvironmentConfig
deriving DecidableEq

/-- The three `ValueError` conditions raised by `ProdLocalEnvironment.validate`,
identified by their messages: `missingSecret` is the condition whose message
says `JWT_SECRET environment variable is required`, `insecureDefaultSecret`
the one about the dev default, `secretTooShort` the one about length. -/
inductive ValidationError : Type
  | missingSecret
  | insecureDefaultSecret
  | secretTooShort
deriving DecidableEq, Repr

/-- The advisory line `CILocalEnvironment.validate` prints to stderr when
`NVD_API_KEY` is not set. -/
def nvdWarning : String :=
  "[WARN] NVD_API_KEY not set. OWASP Dependency-Check will be slower.\n       Get a free key at: https://nvd.nist.gov/developers/request-an-api-key"

/-- Python `str.lower()` as used by `DevEnvironment.__init__` (ASCII
lowercasing, the only case exercised with the `"h2"`/`"postgres"`/
`"Postgres"` arguments the CLI passes). -/
def pyLower (s : String) : String :=
  String.mk (s.data.map Char.toLower)

/-- Constructor `DevEnvironment(database)`: lowercases the argument and picks
the Postgres or H2 configuration. -/
def DevEnvironment.init (database : String) : Builder :=
  let base : EnvironmentConfig :=
    { cookie_secure := false, csp_relaxed := true, require_ssl := false }
  if pyLower database = "postgres" then
    { mode := Mode.dev,
      config := { base with database := DatabaseType.postgres,
                            spring_profile := SpringProfile.dev } }
  else
    { mode := Mode.dev,
      config := { base with database := DatabaseType.h2,
                            spring_profile := SpringProfile.default } }

/-- Mutator `DevEnvironment.with_postgres_credentials(url, username, password)`. -/
def DevEnvironment.with_postgres_credentials
    (b : Builder) (url username password : String) : Builder :=
  { b with config := { b.config with postgres_url := url,
                                     postgres_username := username,
                                     postgres_password := password } }

/-- Constructor `ProdLocalEnvironment()`: reads `JWT_SECRET` from the ambient
environment at construction time into the config. -/
def ProdLocalEnvironment.init (ambient : EnvMap) : Builder :=
  { mode := Mode.prodLocal,
    config := { cookie_secure := true,
                csp_relaxed := false,
                require_ssl := false,
                database := DatabaseType.postgres,
                spring_profile := SpringProfile.prod,
                jwt_secret := ambient "JWT_SECRET" } }

/-- Mutator `ProdLocalEnvironment.with_https()`. -/
def ProdLocalEnvironment.with_https (b : Builder) : Builder :=
  { b with config := { b.config with require_ssl := true } }

/-- Constructor `CILocalEnvironment()`. -/
def CILocalEnvironment.init : Builder :=
  { mode := Mode.ciLocal,
    config := { cookie_secure := true,
                spring_profile := SpringProfile.default,
                csp_relaxed := false,
                require_ssl := false } }

/-- The `validate` method.  Returns the raised condition on failure, or the
list of diagnostic warning lines printed to stderr on success.
`dev` mode always succeeds; `prodLocal` checks the captured secret with
Python truthiness (`if not jwt_secret`), the dev default, then the length;
`ciLocal` always succeeds but warns when `NVD_API_KEY` is not truthy in
the ambient environment. -/
def Builder.validate (b : Builder) (ambient : EnvMap) :
    Except ValidationError (List String) :=
  match b.mode with
  | Mode.dev => Except.ok []
  | Mode.prodLocal =>
    match b.config.jwt_secret with
    | none => Except.error ValidationError.missingSecret
    | some s =>
      if s = "" then Except.error ValidationError.missingSecret
      else if s = DEV_DEFAULT_JWT_SECRET then
        Except.error ValidationError.insecureDefaultSecret
      else if s.length < 32 then Except.error ValidationError.secretTooShort
      else Except.ok []
  | Mode.ciLocal =>
    if pyTruthy (ambient "NVD_API_KEY") then Except.ok []
    else Except.ok [nvdWarning]

/-- Result of a successful `build` call: the produced environment mapping,
the warning lines validation printed, and the builder state after the call
(the source `build` never mutates `self._config`). -/
structure BuildResult : Type where
  env : EnvMap
  warnings : List String
  builder : Builder

/-- Overlay steps 1 to 5 of `build` (source lines 94 to 110): starting
from a copy of the ambient environment, set the two cookie flags, the
Spring profile, the CSP flag (only when `csp_relaxed`), the secret (only
when truthy), and the SSL flag. -/
def EnvironmentConfig.overlayBase (cfg : EnvironmentConfig) (ambient : EnvMap) :
    EnvMap :=
  let env := ambient
  let env := env.set "APP_AUTH_COOKIE_SECURE"
    (if cfg.cookie_secure then "true" else "false")
  let env := env.set "COOKIE_SECURE"
    (if cfg.cookie_secure then "true" else "false")
  let env := env.set "SPRING_PROFILES_ACTIVE" cfg.spring_profile.value
  let env := if cfg.csp_relaxed then env.set "CSP_RELAXED" "true" else env
  let env :=
    match cfg.jwt_secret with
    | some s => if s = "" then env else env.set "JWT_SECRET" s
    | none => env
  env.set "REQUIRE_SSL" (if cfg.require_ssl then "true" else "false")

/-- Overlay step 6 of `build` (source lines 112 to 117): for a Postgres
backend, `setdefault` the four datasource variables; otherwise leave the
environment untouched. -/
def EnvironmentConfig.overlayDatasource (cfg : EnvironmentConfig) (env : EnvMap) :
    EnvMap :=
  if cfg.database = DatabaseType.postgres then
    ((((env.setdefault "SPRING_DATASOURCE_URL" cfg.postgres_url).setdefault
        "SPRING_DATASOURCE_USERNAME" cfg.postgres_username).setdefault
        "SPRING_DATASOURCE_PASSWORD" cfg.postgres_password).setdefault
        "SPRING_DATASOURCE_DRIVER_CLASS_NAME" "org.postgresql.Driver")
  else env

/-- The full overlay performed by a successful `build` (source lines
92 to 122): steps 1 to 5, then the datasource step, then `dict.update`
with the extra variables. -/
def EnvironmentConfig.overlay (cfg : EnvironmentConfig) (ambient : EnvMap) :
    EnvMap :=
  (cfg.overlayDatasource (cfg.overlayBase ambient)).updateAll cfg.extra_vars

/-- The `build` method: validate, then copy the ambient environment and
apply the layered overlay.  The builder state in the result is `b` itself:
the source `build` reads but never writes `self._config`. -/
def Builder.build (b : Builder) (ambient : EnvMap) :
    Except ValidationError BuildResult :=
  match b.validate ambient with
  | Except.error e => Except.error e
  | Except.ok warnings =>
    Except.ok { env := b.config.overlay ambient,
                warnings := warnings,
                builder := b }

/-- The keys written by the datasource overlay step, each paired with the
configured value `build` would give it (source lines 114 to 117). -/
def datasourcePairs (cfg : EnvironmentConfig) : List (String × String) :=
  [("SPRING_DATASOURCE_URL", cfg.postgres_url),
   ("SPRING_DATASOURCE_USERNAME", cfg.postgres_username),
   ("SPRING_DATASOURCE_PASSWORD", cfg.postgres_password),
   ("SPRING_DATASOURCE_DRIVER_CLASS_NAME", "org.postgresql.Driver")]

/-- Source function `is_jwt_secret_valid`. -/
def is_jwt_secret_valid (secret : Option String) : Bool :=
  match secret with
  | none => false
  | some s =>
    if s = "" then false
    else if s = DEV_DEFAULT_JWT_SECRET then false
    else if s.length < 32 then false
    else true

/-- Source function `mask_sensitive_value`. -/
def mask_sensitive_value (value : String) : String :=
  if value.length ≤ 4 then "****"
  else (value.take 2) ++ "..." ++ (value.drop (value.length - 2))

/-- Looks up key `k` in the mapping produced by a successful `build`:
`none` when `build` fails, `some o` when it succeeds and the mapping
holds `o` at `k`. -/
def buildLookup (b : Builder) (ambient : EnvMap) (k : String) :
    Option (Option String) :=
  match b.build ambient with
  | Except.error _ => none
  | Except.ok r => some (r.env k)

/-! Helper lemmas about the environment operations. -/

theorem EnvMap.set_apply (e : EnvMap) (K v k : String) :
    (e.set K v) k = if k = K then some v else e k := rfl

theorem EnvMap.set_apply_ne (e : EnvMap) (K v : String) {k : String}
    (h : k ≠ K) : (e.set K v) k = e k := if_neg h

theorem EnvMap.setdefault_apply (e : EnvMap) (K v k : String) :
    (e.setdefault K v) k = if k = K then some ((e K).getD v) else e k := by
  unfold EnvMap.setdefault
  cases h : e K with
  | some w =>
    by_cases hk : k = K
    · subst hk; simp [h]
    · simp [hk]
  | none =>
    unfold EnvMap.set
    by_cases hk : k = K
    · subst hk; simp [h]
    · simp [hk]

theorem EnvMap.updateAll_nil (e : EnvMap) : e.updateAll [] = e := rfl

theorem updateAll_apply_none (l : List (String × String)) (e : EnvMap)
    (k : String) (h : lastValue l k = none) : e.updateAll l k = e k := by
  induction l generalizing e with
  | nil => rfl
  | cons kv t ih =>
    unfold lastValue at h
    cases hl : lastValue t k with
    | some v => rw [hl] at h; exact absurd h (by simp)
    | none =>
      rw [hl] at h
      have hne : ¬k = kv.1 := by
        intro hk
        rw [if_pos (hk.symm)] at h
        exact absurd h (by simp)
      show EnvMap.updateAll (e.set kv.1 kv.2) t k = e k
      rw [ih _ hl, EnvMap.set_apply, if_neg hne]

theorem updateAll_apply_some (l : List (String × String)) (e : EnvMap)
    (k v : String) (h : lastValue l k = some v) : e.updateAll l k = some v := by
  induction l generalizing e with
  | nil => exact absurd h (by simp [lastValue])
  | cons kv t ih =>
    unfold lastValue at h
    cases hl : lastValue t k with
    | some w =>
      rw [hl] at h
      exact ih (e.set kv.1 kv.2) (hl.trans (by injection h with h; rw [h]))
    | none =>
      rw [hl] at h
      by_cases hk : kv.1 = k
      · rw [if_pos hk] at h
        injection h with h
        show EnvMap.updateAll (e.set kv.1 kv.2) t k = some v
        rw [updateAll_apply_none t _ k hl, EnvMap.set_apply,
          if_pos hk.symm, h]
      · rw [if_neg hk] at h
        exact absurd h (by simp)

/-! Helper lemmas about the overlay steps and `build`. -/

theorem overlayBase_apply_other (cfg : EnvironmentConfig) (ambient : EnvMap)
    {k : String}
    (h1 : k ≠ "APP_AUTH_COOKIE_SECURE") (h2 : k ≠ "COOKIE_SECURE")
    (h3 : k ≠ "SPRING_PROFILES_ACTIVE") (h4 : k ≠ "CSP_RELAXED")
    (h5 : k ≠ "JWT_SECRET") (h6 : k ≠ "REQUIRE_SSL") :
    cfg.overlayBase ambient k = ambient k := by
  unfold EnvironmentConfig.overlayBase
  rw [EnvMap.set_apply_ne _ _ _ h6]
  cases hj : cfg.jwt_secret with
  | none =>
    cases hc : cfg.csp_relaxed <;>
      simp [EnvMap.set_apply, h1, h2, h3, h4]
  | some s =>
    by_cases hs : s = "" <;>
      cases hc : cfg.csp_relaxed <;>
        simp [hs, EnvMap.set_apply, h1, h2, h3, h4, h5]

theorem overlayBase_apply_cookie1 (cfg : EnvironmentConfig) (ambient : EnvMap) :
    cfg.overlayBase ambient "APP_AUTH_COOKIE_SECURE" =
      some (if cfg.cookie_secure then "true" else "false") := by
  unfold EnvironmentConfig.overlayBase
  rw [EnvMap.set_apply_ne _ _ _ (by decide)]
  cases hj : cfg.jwt_secret with
  | none =>
    cases hc : cfg.csp_relaxed <;>
      simp [EnvMap.set_apply]
  | some s =>
    by_cases hs : s = "" <;>
      cases hc : cfg.csp_relaxed <;>
        simp [hs, EnvMap.set_apply]

theorem overlayBase_apply_cookie2 (cfg : EnvironmentConfig) (ambient : EnvMap) :
    cfg.overlayBase ambient "COOKIE_SECURE" =
      some (if cfg.cookie_secure then "true" else "false") := by
  unfold EnvironmentConfig.overlayBase
  rw [EnvMap.set_apply_ne _ _ _ (by decide)]
  cases hj : cfg.jwt_secret with
  | none =>
    cases hc : cfg.csp_relaxed <;>
      simp [EnvMap.set_apply]
  | some s =>
    by_cases hs : s = "" <;>
      cases hc : cfg.csp_relaxed <;>
        simp [hs, EnvMap.set_apply]

theorem overlayBase_apply_profile (cfg : EnvironmentConfig) (ambient : EnvMap) :
    cfg.overlayBase ambient "SPRING_PROFILES_ACTIVE" =
      some cfg.spring_profile.value := by
  unfold EnvironmentConfig.overlayBase
  rw [EnvMap.set_apply_ne _ _ _ (by decide)]
  cases hj : cfg.jwt_secret with
  | none =>
    cases hc : cfg.csp_relaxed <;>
      simp [EnvMap.set_apply]
  | some s =>
    by_cases hs : s = "" <;>
      cases hc : cfg.csp_relaxed <;>
        simp [hs, EnvMap.set_apply]

theorem overlayBase_apply_csp_off (cfg : EnvironmentConfig) (ambient : EnvMap)
    (hc : cfg.csp_relaxed = false) :
    cfg.overlayBase ambient "CSP_RELAXED" = ambient "CSP_RELAXED" := by
  unfold EnvironmentConfig.overlayBase
  rw [EnvMap.set_apply_ne _ _ _ (by decide), hc]
  cases hj : cfg.jwt_secret with
  | none => simp [EnvMap.set_apply]
  | some s =>
    by_cases hs : s = "" <;> simp [hs, EnvMap.set_apply]

theorem overlayDatasource_apply_other (cfg : EnvironmentConfig) (e : EnvMap)
    {k : String}
    (h1 : k ≠ "SPRING_DATASOURCE_URL") (h2 : k ≠ "SPRING_DATASOURCE_USERNAME")
    (h3 : k ≠ "SPRING_DATASOURCE_PASSWORD")
    (h4 : k ≠ "SPRING_DATASOURCE_DRIVER_CLASS_NAME") :
    cfg.overlayDatasource e k = e k := by
  unfold EnvironmentConfig.overlayDatasource
  by_cases hd : cfg.database = DatabaseType.postgres
  · simp [hd, EnvMap.setdefault_apply, h1, h2, h3, h4]
  · simp [hd]

theorem overlayDatasource_apply_mem (cfg : EnvironmentConfig) (e : EnvMap)
    (k dv : String) (hdb : cfg.database = DatabaseType.postgres)
    (hmem : (k, dv) ∈ datasourcePairs cfg) :
    cfg.overlayDatasource e k = some ((e k).getD dv) := by
  unfold EnvironmentConfig.overlayDatasource
  rw [if_pos hdb]
  simp only [datasourcePairs, List.mem_cons, List.not_mem_nil, or_false,
    Prod.mk.injEq] at hmem
  rcases hmem with ⟨hk, hv⟩ | ⟨hk, hv⟩ | ⟨hk, hv⟩ | ⟨hk, hv⟩ <;>
    subst hk <;> subst hv <;>
      simp [EnvMap.setdefault_apply]

theorem build_error_iff (b : Builder) (ambient : EnvMap) (e : ValidationError) :
    b.build ambient = Except.error e ↔ b.validate ambient = Except.error e := by
  unfold Builder.build
  cases h : b.validate ambient <;> simp

theorem build_isOk_of_validate (b : Builder) (ambient : EnvMap)
    (w : List String) (h : b.validate ambient = Except.ok w) :
    (b.build ambient).isOk = true := by
  unfold Builder.build
  rw [h]
  rfl

theorem build_ok_inv (b : Builder) (ambient : EnvMap) (r : BuildResult)
    (h : b.build ambient = Except.ok r) :
    r.env = b.config.overlay ambient ∧ r.builder = b ∧
      b.validate ambient = Except.ok r.warnings := by
  unfold Builder.build at h
  cases hv : b.validate ambient with
  | error e => rw [hv] at h; exact absurd h (by simp)
  | ok w =>
    rw [hv] at h
    injection h with h
    rw [← h]
    exact ⟨rfl, rfl, rfl⟩

theorem buildLookup_eq_overlay (b : Builder) (ambient : EnvMap) (k : String)
    (hok : (b.build ambient).isOk = true) :
    buildLookup b ambient k = some (b.config.overlay ambient k) := by
  unfold buildLookup
  cases h : b.build ambient with
  | error e => rw [h] at hok; simp [Except.isOk, Except.toBool] at hok
  | ok r =>
    show some (r.env k) = some (b.config.overlay ambient k)
    rw [(build_ok_inv b ambient r h).1]

/-- Unfolding equation for `validate` on a freshly constructed ProdLocal
builder: the outcome is a function of the secret captured at construction
(the build-time ambient environment does not occur). -/
theorem validate_init_prodLocal (amb0 ambient : EnvMap) :
    (ProdLocalEnvironment.init amb0).validate ambient =
      (match amb0 "JWT_SECRET" with
       | none => Except.error ValidationError.missingSecret
       | some s =>
         if s = "" then Except.error ValidationError.missingSecret
         else if s = DEV_DEFAULT_JWT_SECRET then
           Except.error ValidationError.insecureDefaultSecret
         else if s.length < 32 then Except.error ValidationError.secretTooShort
         else Except.ok []) := rfl

/-- The `with_https` mutator does not change what `validate` does. -/
theorem validate_with_https_init (amb0 ambient : EnvMap) :
    (ProdLocalEnvironment.with_https (ProdLocalEnvironment.init amb0)).validate
        ambient =
      (ProdLocalEnvironment.init amb0).validate ambient := rfl

/-- The builder a `build` call leaves behind: the one in the result on
success, the untouched receiver on failure. -/
def postBuilder (b : Builder) (ambient : EnvMap) : Builder :=
  match b.build ambient with
  | Except.ok r => r.builder
  | Except.error _ => b

/-- Sample ambient environment holding only an empty-string secret. -/
def emptySecretEnv : EnvMap :=
  fun k => if k = "JWT_SECRET" then some "" else none

/-- Sample ambient environment holding only a valid 32-character secret. -/
def c1ValidEnv : EnvMap :=
  fun k => if k = "JWT_SECRET" then some "abcdefghijklmnopqrstuvwxyz012345" else none

/-- Sample ambient environment holding only a different valid secret. -/
def c6OtherEnv : EnvMap :=
  fun k => if k = "JWT_SECRET" then some "completelydifferentsecretvalue00" else none

/-- C5: if validation fails, `build` propagates exactly that failure and
produces no mapping at all.  The embedding is pure: `build` receives the
ambient environment by value and the source copies `os.environ` before
overlaying, so the ambient environment is never modified. -/
theorem c5_failed_validation_aborts (b : Builder) (ambient : EnvMap)
    (e : ValidationError) (h : b.validate ambient = Except.error e) :
    b.build ambient = Except.error e :=
  (build_error_iff b ambient e).mpr h

/-- C5 witness: a ProdLocal builder constructed with no ambient secret
fails its build with the MissingSecret condition. -/
theorem c5_witness :
    (ProdLocalEnvironment.init emptyEnv).build emptyEnv =
      Except.error ValidationError.missingSecret :=
  c5_failed_validation_aborts (ProdLocalEnvironment.init emptyEnv) emptyEnv
    ValidationError.missingSecret rfl

/-- C6: a ProdLocal builder reads the secret from the ambient environment
exactly once, at construction: two ProdLocal builders constructed from
ambient environments agreeing on the secret variable validate identically,
whatever the ambient environment holds when `validate`/`build` later runs. -/
theorem c6_secret_read_once (amb0 amb0' buildAmb buildAmb' : EnvMap)
    (h : amb0 "JWT_SECRET" = amb0' "JWT_SECRET") :
    (ProdLocalEnvironment.init amb0).validate buildAmb =
      (ProdLocalEnvironment.init amb0').validate buildAmb' := by
  rw [validate_init_prodLocal, validate_init_prodLocal, h]

/-- C6 witness: a builder constructed with no ambient secret still reports
the construction-time outcome even when the ambient environment holds a
valid secret at build time. -/
theorem c6_witness :
    (ProdLocalEnvironment.init emptyEnv).validate emptyEnv =
      (ProdLocalEnvironment.init emptyEnv).validate c6OtherEnv :=
  c6_secret_read_once emptyEnv emptyEnv emptyEnv c6OtherEnv rfl

/-- C7: a CILocal builder never fails: `validate` succeeds for every
ambient environment, returning the single advisory warning line exactly
when the API-key variable is not truthy and no warnings otherwise, and
`build` always returns a complete mapping. -/
theorem c7_cilocal_never_fails (ambient : EnvMap) :
    CILocalEnvironment.init.validate ambient =
      Except.ok (if pyTruthy (ambient "NVD_API_KEY") then [] else [nvdWarning]) ∧
    (CILocalEnvironment.init.build ambient).isOk = true := by
  have hv : CILocalEnvironment.init.validate ambient =
      Except.ok (if pyTruthy (ambient "NVD_API_KEY") then [] else [nvdWarning]) := by
    unfold CILocalEnvironment.init Builder.validate
    cases h : pyTruthy (ambient "NVD_API_KEY") <;> simp [h]
  exact ⟨hv, build_isOk_of_validate _ _ _ hv⟩

/-- C8: `build` is idempotent: it never mutates the builder, so calling
`build` again on the builder left behind by a first call, with the same
ambient environment, returns the very same result (in particular the same
mapping when the first call succeeded). -/
theorem c8_build_idempotent (b : Builder) (ambient : EnvMap) :
    (postBuilder b ambient).build ambient = b.build ambient := by
  unfold postBuilder
  cases h : b.build ambient with
  | error e => exact h
  | ok r =>
    show r.builder.build ambient = Except.ok r
    rw [(build_ok_inv b ambient r h).2.1]
    exact h

/-- C9: the standalone secret-validity predicate rejects a missing secret,
the empty string, the development placeholder, and every string shorter
than 32 characters, and accepts every other string of length at least 32. -/
theorem c9_secret_validity :
    is_jwt_secret_valid none = false ∧
    is_jwt_secret_valid (some "") = false ∧
    is_jwt_secret_valid (some DEV_DEFAULT_JWT_SECRET) = false ∧
    (∀ s : String, s.length < 32 → is_jwt_secret_valid (some s) = false) ∧
    (∀ s : String, 32 ≤ s.length → s ≠ DEV_DEFAULT_JWT_SECRET →
      is_jwt_secret_valid (some s) = true) := by
  refine ⟨rfl, rfl, by decide, ?_, ?_⟩
  · intro s h
    unfold is_jwt_secret_valid
    by_cases h1 : s = ""
    · simp [h1]
    · by_cases h2 : s = DEV_DEFAULT_JWT_SECRET
      · simp [h1, h2]
      · simp [h1, h2, h]
  · intro s h1 h2
    unfold is_jwt_secret_valid
    have h0 : ¬s = "" := by
      intro he
      subst he
      simp at h1
    simp [h0, h2, Nat.not_lt.mpr h1]

/-- C9 witness: the predicate at a short string and at a valid one. -/
theorem c9_witness :
    is_jwt_secret_valid (some "tooshort") = false ∧
    is_jwt_secret_valid (some "abcdefghijklmnopqrstuvwxyz543210") = true :=
  ⟨c9_secret_validity.2.2.2.1 "tooshort" (by decide),
   c9_secret_validity.2.2.2.2 "abcdefghijklmnopqrstuvwxyz543210"
     (by decide) (by decide)⟩

/-- C10: a ProdLocal builder constructed while the ambient secret variable
holds the empty string fails validation with the MissingSecret condition
(not SecretTooShort): the empty string is classified as an absent secret. -/
theorem c10_empty_secret_missing (amb0 ambient : EnvMap)
    (h : amb0 "JWT_SECRET" = some "") :
    (ProdLocalEnvironment.init amb0).validate ambient =
      Except.error ValidationError.missingSecret := by
  rw [validate_init_prodLocal, h]
  rfl

/-- C10 witness: the concrete empty-string-secret environment. -/
theorem c10_witness :
    (ProdLocalEnvironment.init emptySecretEnv).validate emptyEnv =
      Except.error ValidationError.missingSecret :=
  c10_empty_secret_missing emptySecretEnv emptyEnv rfl

/-- C1: for every ProdLocal builder (with or without `with_https`),
validation fails with MissingSecret exactly when the construction-time
secret is not truthy (unset or empty), with InsecureDefaultSecret exactly
when it equals the development placeholder, and with SecretTooShort
exactly when it is truthy, not the placeholder, and shorter than 32
characters; with an exactly-32-character non-placeholder secret both
`validate` and `build` succeed; and `build` fails with a condition exactly
when `validate` does. -/
theorem c1_prodlocal_validation (amb0 ambient : EnvMap) (b : Builder)
    (hb : b = ProdLocalEnvironment.init amb0 ∨
          b = ProdLocalEnvironment.with_https (ProdLocalEnvironment.init amb0)) :
    (b.validate ambient = Except.error ValidationError.missingSecret ↔
       pyTruthy (amb0 "JWT_SECRET") = false) ∧
    (b.validate ambient = Except.error ValidationError.insecureDefaultSecret ↔
       amb0 "JWT_SECRET" = some DEV_DEFAULT_JWT_SECRET) ∧
    (b.validate ambient = Except.error ValidationError.secretTooShort ↔
       ∃ s, amb0 "JWT_SECRET" = some s ∧ s ≠ "" ∧
         s ≠ DEV_DEFAULT_JWT_SECRET ∧ s.length < 32) ∧
    (∀ s, amb0 "JWT_SECRET" = some s → s.length = 32 →
       s ≠ DEV_DEFAULT_JWT_SECRET →
       b.validate ambient = Except.ok [] ∧ (b.build ambient).isOk = true) ∧
    (∀ e, b.build ambient = Except.error e ↔
       b.validate ambient = Except.error e) := by
  have hval : b.validate ambient =
      (match amb0 "JWT_SECRET" with
       | none => Except.error ValidationError.missingSecret
       | some s =>
         if s = "" then Except.error ValidationError.missingSecret
         else if s = DEV_DEFAULT_JWT_SECRET then
           Except.error ValidationError.insecureDefaultSecret
         else if s.length < 32 then Except.error ValidationError.secretTooShort
         else Except.ok []) := by
    rcases hb with hb | hb <;> subst hb
    · exact validate_init_prodLocal amb0 ambient
    · rw [validate_with_https_init]
      exact validate_init_prodLocal amb0 ambient
  have hok_of : ∀ s, amb0 "JWT_SECRET" = some s → s.length = 32 →
      s ≠ DEV_DEFAULT_JWT_SECRET → b.validate ambient = Except.ok [] := by
    intro s hsec hlen hdev
    rw [hval, hsec]
    have hs : ¬s = "" := by
      intro he
      subst he
      simp at hlen
    have hl : ¬s.length < 32 := by rw [hlen]; decide
    simp [hs, hdev, hl]
  refine ⟨?_, ?_, ?_,
    fun s hsec hlen hdev =>
      ⟨hok_of s hsec hlen hdev,
       build_isOk_of_validate _ _ _ (hok_of s hsec hlen hdev)⟩,
    fun e => build_error_iff b ambient e⟩
  · rw [hval]
    cases hsec : amb0 "JWT_SECRET" with
    | none => simp [pyTruthy]
    | some s =>
      by_cases hs : s = ""
      · subst hs; simp [pyTruthy]
      · simp only []
        rw [if_neg hs]
        split_ifs <;> simp [pyTruthy, hs]
  · rw [hval]
    cases hsec : amb0 "JWT_SECRET" with
    | none => simp
    | some s =>
      by_cases hs : s = ""
      · subst hs
        simp [show ("" : String) ≠ DEV_DEFAULT_JWT_SECRET from by decide]
      · simp only []
        rw [if_neg hs]
        by_cases hd : s = DEV_DEFAULT_JWT_SECRET
        · rw [if_pos hd]; simp [hd]
        · rw [if_neg hd]; split_ifs <;> simp [hd]
  · rw [hval]
    cases hsec : amb0 "JWT_SECRET" with
    | none => simp
    | some s =>
      by_cases hs : s = ""
      · subst hs; simp
      · simp only []
        rw [if_neg hs]
        by_cases hd : s = DEV_DEFAULT_JWT_SECRET
        · rw [if_pos hd]
          subst hd
          simp
        · rw [if_neg hd]
          by_cases hl : s.length < 32
          · rw [if_pos hl]; simp [hs, hd, hl]
          · rw [if_neg hl]; simp [hs, hd, hl]

/-- C1 witness: a concrete 32-character non-placeholder secret makes a
ProdLocal builder validate and build successfully. -/
theorem c1_witness :
    (ProdLocalEnvironment.init c1ValidEnv).validate emptyEnv = Except.ok [] ∧
    ((ProdLocalEnvironment.init c1ValidEnv).build emptyEnv).isOk = true :=
  (c1_prodlocal_validation c1ValidEnv emptyEnv
      (ProdLocalEnvironment.init c1ValidEnv) (Or.inl rfl)).2.2.2.1
    "abcdefghijklmnopqrstuvwxyz012345" rfl (by decide) (by decide)

/-- C2: an extra override supplied by the caller (the rightmost entry for
its key, matching Python dict semantics) always appears in the mapping of
a successful build with exactly its supplied value, over whatever any
earlier overlay step or the ambient environment put there. -/
theorem c2_extra_overrides_win (b : Builder) (ambient : EnvMap) (k v : String)
    (hlast : lastValue b.config.extra_vars k = some v)
    (hok : (b.build ambient).isOk = true) :
    buildLookup b ambient k = some (some v) := by
  rw [buildLookup_eq_overlay b ambient k hok]
  unfold EnvironmentConfig.overlay
  rw [updateAll_apply_some _ _ _ _ hlast]

/-- Sample builder carrying extra overrides, one of which collides with
the Spring-profile key that overlay step 2 writes. -/
def c2Builder : Builder :=
  { mode := Mode.dev,
    config := { extra_vars := [("SPRING_PROFILES_ACTIVE", "custom"),
                               ("EXTRA_FLAG", "on")] } }

/-- Sample ambient environment that also binds the Spring-profile key. -/
def c2Ambient : EnvMap :=
  fun k => if k = "SPRING_PROFILES_ACTIVE" then some "ambientvalue" else none

/-- C2 witness: the override the caller supplies for the profile key beats both the
ambient value and the value overlay step 2 computed. -/
theorem c2_witness :
    buildLookup c2Builder c2Ambient "SPRING_PROFILES_ACTIVE" =
      some (some "custom") :=
  c2_extra_overrides_win c2Builder c2Ambient "SPRING_PROFILES_ACTIVE" "custom"
    rfl (by decide)

/-- C3: for every builder with a Postgres backend, each of the four
datasource keys resolves in the mapping of a successful build to the ambient
value when the key is present in the ambient environment and to the
configured value of the builder otherwise (absent extra overrides for that
key); and for a Dev builder, `with_postgres_credentials` sets exactly
those configured values. -/
theorem c3_postgres_datasource :
    (∀ (b : Builder) (ambient : EnvMap) (k dv : String),
       b.config.database = DatabaseType.postgres →
       (k, dv) ∈ datasourcePairs b.config →
       lastValue b.config.extra_vars k = none →
       (b.build ambient).isOk = true →
       buildLookup b ambient k = some (some ((ambient k).getD dv))) ∧
    (∀ (b : Builder) (url username password : String),
       datasourcePairs (DevEnvironment.with_postgres_credentials
           b url username password).config =
         [("SPRING_DATASOURCE_URL", url),
          ("SPRING_DATASOURCE_USERNAME", username),
          ("SPRING_DATASOURCE_PASSWORD", password),
          ("SPRING_DATASOURCE_DRIVER_CLASS_NAME", "org.postgresql.Driver")]) := by
  constructor
  · intro b ambient k dv hdb hmem hextra hok
    rw [buildLookup_eq_overlay b ambient k hok]
    unfold EnvironmentConfig.overlay
    rw [updateAll_apply_none _ _ _ hextra]
    simp only [datasourcePairs, List.mem_cons, List.not_mem_nil, or_false,
      Prod.mk.injEq] at hmem
    rcases hmem with ⟨hk, hv⟩ | ⟨hk, hv⟩ | ⟨hk, hv⟩ | ⟨hk, hv⟩ <;>
      subst hk <;> subst hv
    · have hm : ("SPRING_DATASOURCE_URL", b.config.postgres_url) ∈
          datasourcePairs b.config := by simp [datasourcePairs]
      rw [overlayDatasource_apply_mem b.config _ _ _ hdb hm,
        overlayBase_apply_other b.config ambient (by decide) (by decide)
          (by decide) (by decide) (by decide) (by decide)]
    · have hm : ("SPRING_DATASOURCE_USERNAME", b.config.postgres_username) ∈
          datasourcePairs b.config := by simp [datasourcePairs]
      rw [overlayDatasource_apply_mem b.config _ _ _ hdb hm,
        overlayBase_apply_other b.config ambient (by decide) (by decide)
          (by decide) (by decide) (by decide) (by decide)]
    · have hm : ("SPRING_DATASOURCE_PASSWORD", b.config.postgres_password) ∈
          datasourcePairs b.config := by simp [datasourcePairs]
      rw [overlayDatasource_apply_mem b.config _ _ _ hdb hm,
        overlayBase_apply_other b.config ambient (by decide) (by decide)
          (by decide) (by decide) (by decide) (by decide)]
    · have hm : ("SPRING_DATASOURCE_DRIVER_CLASS_NAME",
          "org.postgresql.Driver") ∈ datasourcePairs b.config := by
        simp [datasourcePairs]
      rw [overlayDatasource_apply_mem b.config _ _ _ hdb hm,
        overlayBase_apply_other b.config ambient (by decide) (by decide)
          (by decide) (by decide) (by decide) (by decide)]
  · intro b url username password
    rfl

/-- C3 witness: a Dev Postgres builder built against an empty ambient
environment resolves the datasource URL to its configured default. -/
theorem c3_witness :
    buildLookup (DevEnvironment.init "postgres") emptyEnv
        "SPRING_DATASOURCE_URL" =
      some (some "jdbc:postgresql://localhost:5432/contactapp") :=
  c3_postgres_datasource.1 (DevEnvironment.init "postgres") emptyEnv
    "SPRING_DATASOURCE_URL" "jdbc:postgresql://localhost:5432/contactapp"
    (by decide) (by decide) rfl (by decide)

/-- Sample ambient environment with a valid secret and an ambient CSP
flag, refuting the universally-quantified absence in claim C4. -/
def c4Ambient : EnvMap :=
  fun k => if k = "JWT_SECRET" then some "abcdefghijklmnopqrstuvwxyz012345"
           else if k = "CSP_RELAXED" then some "true" else none

/-- C4 counterexample: a ProdLocal builder with a valid secret and no
extra overrides, built against an ambient environment that already binds
the CSP-relaxation key, returns a mapping in which that key is present
(the claim asserts it is absent for every ambient environment). -/
theorem c4_counterexample :
    buildLookup (ProdLocalEnvironment.init c4Ambient) c4Ambient
        "CSP_RELAXED" = some (some "true") := by decide

/-- C4 (amended): for every ProdLocal builder (with or without
`with_https`) whose build succeeds, the mapping holds both cookie-security
keys as the string true and the active-profile key as prod, and build
never writes the CSP-relaxation key: its value in the mapping is exactly
its ambient value, so it is absent whenever the ambient environment does
not bind it. -/
theorem c4_prodlocal_output (amb0 ambient : EnvMap) (b : Builder)
    (hb : b = ProdLocalEnvironment.init amb0 ∨
          b = ProdLocalEnvironment.with_https (ProdLocalEnvironment.init amb0))
    (hok : (b.build ambient).isOk = true) :
    buildLookup b ambient "APP_AUTH_COOKIE_SECURE" = some (some "true") ∧
    buildLookup b ambient "COOKIE_SECURE" = some (some "true") ∧
    buildLookup b ambient "SPRING_PROFILES_ACTIVE" = some (some "prod") ∧
    buildLookup b ambient "CSP_RELAXED" = some (ambient "CSP_RELAXED") := by
  have hcs : b.config.cookie_secure = true := by
    rcases hb with h | h <;> subst h <;> rfl
  have hsp : b.config.spring_profile = SpringProfile.prod := by
    rcases hb with h | h <;> subst h <;> rfl
  have hcr : b.config.csp_relaxed = false := by
    rcases hb with h | h <;> subst h <;> rfl
  have hev : b.config.extra_vars = [] := by
    rcases hb with h | h <;> subst h <;> rfl
  refine ⟨?_, ?_, ?_, ?_⟩ <;>
    rw [buildLookup_eq_overlay b ambient _ hok] <;>
    unfold EnvironmentConfig.overlay <;>
    rw [hev, EnvMap.updateAll_nil]
  · rw [overlayDatasource_apply_other _ _ (by decide) (by decide) (by decide)
      (by decide), overlayBase_apply_cookie1, hcs]
    rfl
  · rw [overlayDatasource_apply_other _ _ (by decide) (by decide) (by decide)
      (by decide), overlayBase_apply_cookie2, hcs]
    rfl
  · rw [overlayDatasource_apply_other _ _ (by decide) (by decide) (by decide)
      (by decide), overlayBase_apply_profile, hsp]
    rfl
  · rw [overlayDatasource_apply_other _ _ (by decide) (by decide) (by decide)
      (by decide), overlayBase_apply_csp_off _ _ hcr]

/-- C4 witness: the amended statement at the concrete sample environment:
the CSP key resolves to its ambient value. -/
theorem c4_witness :
    buildLookup (ProdLocalEnvironment.init c4Ambient) c4Ambient
        "APP_AUTH_COOKIE_SECURE" = some (some "true") ∧
    buildLookup (ProdLocalEnvironment.init c4Ambient) c4Ambient
        "COOKIE_SECURE" = some (some "true") ∧
    buildLookup (ProdLocalEnvironment.init c4Ambient) c4Ambient
        "SPRING_PROFILES_ACTIVE" = some (some "prod") ∧
    buildLookup (ProdLocalEnvironment.init c4Ambient) c4Ambient
        "CSP_RELAXED" = some (c4Ambient "CSP_RELAXED") :=
  c4_prodlocal_output c4Ambient c4Ambient
    (ProdLocalEnvironment.init c4Ambient) (Or.inl rfl) (by decide)

end RuntimeEnv
